import Mathlib

/-!
Shallow embedding of the portfolio-accounting code of the trade-analysis
repository (modules/data_loader.py, modules/kpi.py), together with proofs
about the claims of its specification.

Modelling conventions:
* pandas DataFrames become Lean lists of structures, one structure field per
  column; a row access `row["col"]` that can fail (the column may be absent
  from the table) is modelled by a total column-lookup function returning
  `Option`, and the surrounding computation returns `Except` where the
  source can raise a `KeyError`.
* Python floats become `ℚ` (exact arithmetic).
* dates (`pd.Timestamp`) become `Option Nat` timestamps (`none` models
  `NaT`, obtained from `pd.to_datetime(..., errors="coerce")`);
  `pd.Timestamp.now()` becomes an explicit `now : Nat` argument.
* the live-price collaborator `get_current_price` (a network call whose
  failures are all caught and turned into `None`, data_loader.py lines
  44-101) becomes a parameter `p : String → Option ℚ`.
-/

/-- A row of the trade ledger after loading (all columns of the CSV used by
the accounting code).  Numeric columns that `load_trade_data` fills are
plain `ℚ` here; dates may be `NaT` (`none`). -/
structure Trade where
  name : String
  code : String
  status : String
  buyDate : Option Nat
  sellDate : Option Nat
  buyPrice : ℚ
  buyQty : ℚ
  sellUnitPrice : ℚ
  sellProceeds : ℚ
  realizedPnl : ℚ
  pctChange : ℚ

/-- A raw CSV row before `load_trade_data` runs: the four numeric columns
`売付単価`, `売付約定代金`, `実現損益`, `増減率` may be missing (`NaN`),
modelled as `Option ℚ`.  The security code is the raw string read from the
CSV (before the `.0` strip). -/
structure RawTrade where
  name : String
  code : String
  status : String
  buyDate : Option Nat
  sellDate : Option Nat
  buyPrice : ℚ
  buyQty : ℚ
  sellUnitPrice : Option ℚ
  sellProceeds : Option ℚ
  realizedPnl : Option ℚ
  pctChange : Option ℚ

/-- Python's `str.replace(".0", "")` on the character list of the security
code: removes every (non-overlapping, left-to-right) occurrence of `.0`
(data_loader.py line 27). -/
def replDotZero : List Char → List Char
  | [] => []
  | '.' :: '0' :: rest => replDotZero rest
  | c :: rest => c :: replDotZero rest

/-- The per-row transformation of `load_trade_data` (data_loader.py lines
23-41): the code column is stringified with `.0` stripped, the date columns
are the coerced timestamps, and each of the four numeric columns
`売付単価`, `売付約定代金`, `実現損益`, `増減率` has `NaN` replaced by 0
(`fillna(0)`). -/
def loadRow (r : RawTrade) : Trade :=
  { name := r.name
    code := String.mk (replDotZero r.code.data)
    status := r.status
    buyDate := r.buyDate
    sellDate := r.sellDate
    buyPrice := r.buyPrice
    buyQty := r.buyQty
    sellUnitPrice := r.sellUnitPrice.getD 0
    sellProceeds := r.sellProceeds.getD 0
    realizedPnl := r.realizedPnl.getD 0
    pctChange := r.pctChange.getD 0 }

/-- `load_trade_data` (data_loader.py lines 11-41) restricted to its row
transformation: reading the CSV file and the file-existence check are I/O
and are abstracted away; the function maps `loadRow` over the parsed rows. -/
def load_trade_data (rows : List RawTrade) : List Trade :=
  rows.map loadRow

/-- One row of the table built by `calculate_unrealized_pnl`
(data_loader.py lines 131-142), one structure field per dict key. -/
structure UnrealizedPos where
  name : String
  code : String
  buyDate : Option Nat
  buyPrice : ℚ
  currentPrice : ℚ
  quantity : ℚ
  purchaseValue : ℚ
  currentValue : ℚ
  pnl : ℚ
  pnlRate : ℚ

/-- The column labels of the table built by `calculate_unrealized_pnl`, in
source order (data_loader.py lines 131-142).  Note the profit column is
named `含み損益`, not `損益`. -/
def unrealizedCols : List String :=
  ["銘柄名", "証券コード", "買付日", "買付単価", "現在値", "数量",
   "買付金額", "評価額", "含み損益", "増減率"]

/-- Lookup of a numeric column of the unrealized table by its pandas label;
`none` models the `KeyError` a missing column raises on access. -/
def UnrealizedPos.getNum (r : UnrealizedPos) (c : String) : Option ℚ :=
  if c = "買付単価" then some r.buyPrice
  else if c = "現在値" then some r.currentPrice
  else if c = "数量" then some r.quantity
  else if c = "買付金額" then some r.purchaseValue
  else if c = "評価額" then some r.currentValue
  else if c = "含み損益" then some r.pnl
  else if c = "増減率" then some r.pnlRate
  else none

/-- Loop body of `calculate_unrealized_pnl` (data_loader.py lines 114-142):
resolve the current price (falling back to the purchase price when the
lookup fails), then compute valuation, unrealized P&L and its rate, the
rate guarded against a zero purchase value. -/
def unrealizedRow (p : String → Option ℚ) (row : Trade) : UnrealizedPos :=
  let current_price := (p row.code).getD row.buyPrice
  let quantity := row.buyQty
  let purchase_price := row.buyPrice
  let current_value := current_price * quantity
  let purchase_value := purchase_price * quantity
  let pnl := current_value - purchase_value
  let pnl_rate := if purchase_value > 0 then pnl / purchase_value * 100 else 0
  { name := row.name
    code := row.code
    buyDate := row.buyDate
    buyPrice := purchase_price
    currentPrice := current_price
    quantity := quantity
    purchaseValue := purchase_value
    currentValue := current_value
    pnl := pnl
    pnlRate := pnl_rate }

/-- `calculate_unrealized_pnl` (data_loader.py lines 104-146): filter the
ledger to the rows whose status is `保有中` and build one unrealized row
per holding (an empty holding set yields the empty table). -/
def calculate_unrealized_pnl (df : List Trade) (p : String → Option ℚ) :
    List UnrealizedPos :=
  (df.filter (fun t => t.status == "保有中")).map (unrealizedRow p)

/-- Sum of a numeric column of the unrealized table, as pandas
`df["col"].sum()` (absent entries contribute nothing; the code only calls
this under a column-membership guard, so the `getD` branch is never
reached there). -/
def sumCol (u : List UnrealizedPos) (c : String) : ℚ :=
  (u.map (fun r => (r.getNum c).getD 0)).sum

/-- The guarded unrealized total that both `calculate_kpis` (kpi.py lines
48-52) and `calculate_equity_curve` (kpi.py lines 94-98) compute:
`unrealized_df["損益"].sum() if not unrealized_df.empty and "損益" in
unrealized_df.columns else 0`. -/
def unrealizedTotal (u : List UnrealizedPos) : ℚ :=
  if u.isEmpty = false ∧ "損益" ∈ unrealizedCols then sumCol u "損益" else 0

/-- The KPI dictionary built by `calculate_kpis` (kpi.py lines 57-66), one
field per key. -/
structure KPIs where
  tradeCount : Nat
  winRate : ℚ
  avgProfitRate : ℚ
  avgLossRate : ℚ
  realizedPnl : ℚ
  unrealizedPnl : ℚ
  capital : ℚ
  totalPnl : ℚ

/-- `calculate_kpis` (kpi.py lines 11-68): closed-trade count, win rate
(guarded against zero closed trades), mean profit/loss percentage over the
winner/loser buckets (guarded against empty buckets), total realized P&L,
the guarded unrealized total, and the grand total. -/
def calculate_kpis (df : List Trade) (unrealized_df : List UnrealizedPos)
    (capital : ℚ) : KPIs :=
  let closed_trades := df.filter (fun t => t.status == "売却済")
  let total_trades := closed_trades.length
  let win_rate : ℚ :=
    if total_trades > 0 then
      ((closed_trades.filter (fun t => decide (0 < t.realizedPnl))).length : ℚ)
        / (total_trades : ℚ) * 100
    else 0
  let profits :=
    (closed_trades.filter (fun t => decide (0 < t.realizedPnl))).map
      (fun t => t.pctChange)
  let losses :=
    (closed_trades.filter (fun t => decide (t.realizedPnl < 0))).map
      (fun t => t.pctChange)
  let avg_profit_rate : ℚ :=
    if profits.isEmpty = false then profits.sum / (profits.length : ℚ) else 0
  let avg_loss_rate : ℚ :=
    if losses.isEmpty = false then losses.sum / (losses.length : ℚ) else 0
  let realized_pnl : ℚ :=
    if closed_trades.isEmpty = false then
      (closed_trades.map (fun t => t.realizedPnl)).sum
    else 0
  let unrealized_pnl := unrealizedTotal unrealized_df
  { tradeCount := total_trades
    winRate := win_rate
    avgProfitRate := avg_profit_rate
    avgLossRate := avg_loss_rate
    realizedPnl := realized_pnl
    unrealizedPnl := unrealized_pnl
    capital := capital
    totalPnl := realized_pnl + unrealized_pnl }

/-- Order on `NaT`-capable timestamps used by `sort_values("売付日")`:
ordinary `≤` on present dates, with `NaT` sorted last (pandas default
`na_position="last"`). -/
def natLastB : Option Nat → Option Nat → Bool
  | some x, some y => Nat.ble x y
  | some _, none => true
  | none, some _ => false
  | none, none => true

/-- The sale-date comparison on ledger rows backing
`closed.sort_values("売付日")` (kpi.py line 82). -/
def sellLE (a b : Trade) : Prop := natLastB a.sellDate b.sellDate = true

instance instDecRelSellLE : DecidableRel sellLE :=
  fun a b => inferInstanceAs (Decidable (_ = true))

instance instTotalSellLE : IsTotal Trade sellLE where
  total a b := by
    unfold sellLE
    cases a.sellDate <;> cases b.sellDate <;> simp [natLastB, Nat.ble_eq] <;> omega

instance instTransSellLE : IsTrans Trade sellLE where
  trans a b c := by
    unfold sellLE
    cases a.sellDate <;> cases b.sellDate <;> cases c.sellDate <;>
      simp [natLastB, Nat.ble_eq] <;> omega

/-- One row of the equity-curve frame returned by `calculate_equity_curve`
(kpi.py lines 107-113): date, asset value, and the constant principal
column. -/
structure EquityPoint where
  date : Option Nat
  asset : ℚ
  principal : ℚ

/-- Loop of `calculate_equity_curve` (kpi.py lines 88-91): one point per
closed trade, carrying the running cumulative realized P&L. -/
def equityPoints (capital : ℚ) : List Trade → ℚ → List EquityPoint
  | [], _ => []
  | t :: ts, cum =>
    let cum2 := cum + t.realizedPnl
    { date := t.sellDate, asset := capital + cum2, principal := capital }
      :: equityPoints capital ts cum2

/-- `calculate_equity_curve` (kpi.py lines 74-113): empty ledger returns
the empty frame; otherwise the closed trades are sorted by sale date, one
point is emitted per closed trade with the running total, and a single
trailing point at evaluation time `now` adds the guarded unrealized total
to the last equity value (or to the principal when no closed trade
exists). -/
def calculate_equity_curve (df : List Trade) (unrealized_df : List UnrealizedPos)
    (capital : ℚ) (now : Nat) : List EquityPoint :=
  if df.isEmpty then []
  else
    let closed := List.insertionSort sellLE (df.filter (fun t => t.status == "売却済"))
    let pts := equityPoints capital closed 0
    let current_equity :=
      (match pts.getLast? with
       | some pt => pt.asset
       | none => capital) + unrealizedTotal unrealized_df
    pts ++ [{ date := some now, asset := current_equity, principal := capital }]

/-- Abstraction of `Timestamp.strftime("%Y-%m-%d")`: renders the abstract
timestamp; distinct timestamps render distinctly and never as `-`. -/
def formatDate (d : Nat) : String := toString d

/-- The `strftime if notna else ""` pattern of kpi.py lines 134-139. -/
def fmtOptDate : Option Nat → String
  | some d => formatDate d
  | none => ""

/-- Round a rational to the nearest integer, ties to even (the rounding of
Python's fixed-point float formatting). -/
def roundHalfEven (q : ℚ) : Int :=
  let f := ⌊q⌋
  let frac := q - (f : ℚ)
  if frac < 1 / 2 then f
  else if 1 / 2 < frac then f + 1
  else if f % 2 = 0 then f else f + 1

/-- Python's `f"{x:.2f}"`: fixed-point rendering with exactly two decimal
places. -/
def formatFixed2 (q : ℚ) : String :=
  let n := roundHalfEven (q * 100)
  let s := if n < 0 then "-" else ""
  let m := n.natAbs
  let d := m % 100
  s ++ toString (m / 100) ++ "." ++ (if d < 10 then "0" else "") ++ toString d

/-- Inverse of `formatDate` on digit strings, used to state ordering of
display rows by their rendered entry date. -/
def decodeDate (s : String) : Nat :=
  s.data.foldl (fun n c => n * 10 + (c.toNat - 48)) 0

/-- One row of the display table built by `get_trade_summary_table`
(kpi.py lines 129-160), one field per dict key. -/
structure DisplayRow where
  name : String
  code : String
  status : String
  buyDate : String
  sellDate : String
  pnl : ℚ
  pct : String

/-- Row built for a closed trade (kpi.py lines 129-143). -/
def closedDisplayRow (t : Trade) : DisplayRow :=
  { name := t.name
    code := t.code
    status := "売却済"
    buyDate := fmtOptDate t.buyDate
    sellDate := fmtOptDate t.sellDate
    pnl := t.realizedPnl
    pct := formatFixed2 t.pctChange ++ "%" }

/-- Row built for an open position (kpi.py lines 147-160).  The source
reads `row["損益"]` and `row["増減率"]` from the unrealized table; a
column absent from that table raises `KeyError` on access, modelled as
`Except.error`. -/
def holdingDisplayRow (r : UnrealizedPos) : Except String DisplayRow :=
  match r.getNum "損益" with
  | none => Except.error "KeyError: 損益"
  | some v =>
    match r.getNum "増減率" with
    | none => Except.error "KeyError: 増減率"
    | some rate =>
      Except.ok
        { name := r.name
          code := r.code
          status := "保有中"
          buyDate := fmtOptDate r.buyDate
          sellDate := "-"
          pnl := v
          pct := formatFixed2 rate ++ "%" }

/-- The `保有中` loop of `get_trade_summary_table` (kpi.py lines 146-160):
rows are appended one at a time and the first failing column access aborts
the whole call with its `KeyError`. -/
def buildHoldingRows : List UnrealizedPos → Except String (List DisplayRow)
  | [] => Except.ok []
  | r :: rs =>
    match holdingDisplayRow r with
    | Except.error e => Except.error e
    | Except.ok d =>
      match buildHoldingRows rs with
      | Except.error e => Except.error e
      | Except.ok ds => Except.ok (d :: ds)

/-- `get_trade_summary_table` (kpi.py lines 119-162): one row per closed
trade in ledger order, then — when the unrealized table is not empty —
one row per open position in table order; a `KeyError` raised while
building the latter aborts the call. -/
def get_trade_summary_table (df : List Trade) (unrealized_df : List UnrealizedPos) :
    Except String (List DisplayRow) :=
  let closedRows := (df.filter (fun t => t.status == "売却済")).map closedDisplayRow
  match unrealized_df with
  | [] => Except.ok closedRows
  | r :: rs =>
    match buildHoldingRows (r :: rs) with
    | Except.error e => Except.error e
    | Except.ok hs => Except.ok (closedRows ++ hs)

/-- Example open trade: bought at 50, quantity 5, never sold (the spec's
scenario "buy 10 @ $50, qty 5"). -/
def exOpen : Trade :=
  { name := "オープン株", code := "100", status := "保有中",
    buyDate := some 10, sellDate := none, buyPrice := 50, buyQty := 5,
    sellUnitPrice := 0, sellProceeds := 0, realizedPnl := 0, pctChange := 0 }

/-- Example open trade with quantity 0 (zero purchase value). -/
def exOpenZero : Trade :=
  { name := "ゼロ株", code := "300", status := "保有中",
    buyDate := some 11, sellDate := none, buyPrice := 50, buyQty := 0,
    sellUnitPrice := 0, sellProceeds := 0, realizedPnl := 0, pctChange := 0 }

/-- Example closed trade: realized P&L 500, sold at timestamp 5. -/
def exClosed : Trade :=
  { name := "クローズ株", code := "200", status := "売却済",
    buyDate := some 2, sellDate := some 5, buyPrice := 100, buyQty := 10,
    sellUnitPrice := 150, sellProceeds := 1500, realizedPnl := 500,
    pctChange := 50 }

/-- Closed trade with entry date 2 (middle). -/
def exSortA : Trade :=
  { name := "Ａ株", code := "201", status := "売却済",
    buyDate := some 2, sellDate := some 4, buyPrice := 10, buyQty := 1,
    sellUnitPrice := 11, sellProceeds := 11, realizedPnl := 1, pctChange := 10 }

/-- Closed trade with entry date 1 (earliest). -/
def exSortB : Trade :=
  { name := "Ｂ株", code := "202", status := "売却済",
    buyDate := some 1, sellDate := some 5, buyPrice := 10, buyQty := 1,
    sellUnitPrice := 11, sellProceeds := 11, realizedPnl := 1, pctChange := 10 }

/-- Closed trade with entry date 3 (latest). -/
def exSortC : Trade :=
  { name := "Ｃ株", code := "203", status := "売却済",
    buyDate := some 3, sellDate := some 6, buyPrice := 10, buyQty := 1,
    sellUnitPrice := 11, sellProceeds := 11, realizedPnl := 1, pctChange := 10 }

/-- Price lookup that always succeeds with price 60. -/
def pSixty : String → Option ℚ := fun _ => some 60

/-- Price lookup that always fails (models every `get_current_price`
failure mode, all of which return `None`). -/
def pNone : String → Option ℚ := fun _ => none

/-- Raw CSV row of an open trade: the sale-side numeric columns are
missing, as they are in the ledger for a position not yet sold. -/
def exRawOpen : RawTrade :=
  { name := "オープン株", code := "100.0", status := "保有中",
    buyDate := some 10, sellDate := none, buyPrice := 50, buyQty := 5,
    sellUnitPrice := none, sellProceeds := none, realizedPnl := none,
    pctChange := none }

theorem holdingDisplayRow_eq_error (r : UnrealizedPos) :
    holdingDisplayRow r = Except.error "KeyError: 損益" := rfl

theorem zip_unrealized (df : List Trade) (p : String → Option ℚ) :
    (df.filter (fun t => t.status == "保有中")).zip (calculate_unrealized_pnl df p)
      = (df.filter (fun t => t.status == "保有中")).map
          (fun t => (t, unrealizedRow p t)) := by
  have h := List.zip_map' id (unrealizedRow p) (df.filter (fun t => t.status == "保有中"))
  simpa [calculate_unrealized_pnl] using h

/-- C9: for every ledger, unrealized table and principal, the KPI snapshot
returned by `calculate_kpis` satisfies total P&L = total realized P&L +
total unrealized P&L exactly. -/
theorem c9_total_pnl_is_realized_plus_unrealized
    (df : List Trade) (u : List UnrealizedPos) (capital : ℚ) :
    (calculate_kpis df u capital).totalPnl =
      (calculate_kpis df u capital).realizedPnl +
        (calculate_kpis df u capital).unrealizedPnl := rfl

/-- C10: `load_trade_data` returns one row per raw row, with each of the
four numeric columns 売付単価, 売付約定代金, 実現損益, 増減率 equal to the
raw value with a missing entry replaced by 0; consequently a row whose
realized P&L and percentage change are missing loads identically to one
where they are genuinely zero. -/
theorem c10_fillna_zero (rows : List RawTrade) :
    (load_trade_data rows).length = rows.length ∧
    (∀ pr ∈ rows.zip (load_trade_data rows),
      pr.2.sellUnitPrice = pr.1.sellUnitPrice.getD 0 ∧
      pr.2.sellProceeds = pr.1.sellProceeds.getD 0 ∧
      pr.2.realizedPnl = pr.1.realizedPnl.getD 0 ∧
      pr.2.pctChange = pr.1.pctChange.getD 0) ∧
    (∀ r : RawTrade,
      loadRow { r with realizedPnl := none, pctChange := none }
        = loadRow { r with realizedPnl := some 0, pctChange := some 0 }) := by
  refine ⟨by simp [load_trade_data], ?_, ?_⟩
  · intro pr hpr
    have h2 : rows.zip (load_trade_data rows)
        = rows.map (fun r => (r, loadRow r)) := by
      have h := List.zip_map' id loadRow rows
      simpa [load_trade_data] using h
    rw [h2] at hpr
    obtain ⟨r, hr, rfl⟩ := List.mem_map.mp hpr
    exact ⟨rfl, rfl, rfl, rfl⟩
  · intro r
    simp [loadRow]

theorem c10_witness :
    (load_trade_data [exRawOpen]).length = 1 ∧
    (loadRow exRawOpen).realizedPnl = 0 ∧
    (loadRow exRawOpen).pctChange = 0 ∧
    (loadRow exRawOpen).sellUnitPrice = 0 ∧
    (loadRow exRawOpen).sellProceeds = 0 := by
  obtain ⟨hlen, hall, _⟩ := c10_fillna_zero [exRawOpen]
  have h := hall (exRawOpen, loadRow exRawOpen)
    (by simp [load_trade_data])
  exact ⟨hlen, by simpa [exRawOpen] using h.2.2.1,
    by simpa [exRawOpen] using h.2.2.2,
    by simpa [exRawOpen] using h.1,
    by simpa [exRawOpen] using h.2.1⟩

/-- C7: a failing price lookup makes `calculate_unrealized_pnl` fall back
to the purchase price for that position, giving it unrealized P&L 0 and
rate 0, while still producing one output row per open trade (no abort). -/
theorem c7_lookup_failure_falls_back (df : List Trade) (p : String → Option ℚ) :
    (calculate_unrealized_pnl df p).length
      = (df.filter (fun t => t.status == "保有中")).length ∧
    ∀ pr ∈ (df.filter (fun t => t.status == "保有中")).zip
        (calculate_unrealized_pnl df p),
      p pr.1.code = none →
        pr.2.currentPrice = pr.1.buyPrice ∧ pr.2.pnl = 0 ∧ pr.2.pnlRate = 0 := by
  refine ⟨by simp [calculate_unrealized_pnl], ?_⟩
  intro pr hpr hnone
  rw [zip_unrealized] at hpr
  obtain ⟨t, ht, rfl⟩ := List.mem_map.mp hpr
  simp only at hnone
  refine ⟨by simp [unrealizedRow, hnone], ?_, ?_⟩
  · simp [unrealizedRow, hnone]
  · simp only [unrealizedRow, hnone]
    simp only [Option.getD_none]
    split
    · simp
    · rfl

theorem c7_witness :
    (calculate_unrealized_pnl [exOpen] pNone).length = 1 ∧
    (unrealizedRow pNone exOpen).currentPrice = exOpen.buyPrice ∧
    (unrealizedRow pNone exOpen).pnl = 0 ∧
    (unrealizedRow pNone exOpen).pnlRate = 0 := by
  obtain ⟨hlen, hall⟩ := c7_lookup_failure_falls_back [exOpen] pNone
  have h := hall (exOpen, unrealizedRow pNone exOpen)
    (by rw [zip_unrealized]; simp [exOpen]) rfl
  exact ⟨by simpa [exOpen] using hlen, h⟩

/-- C8: every row of the unrealized table has rate 0 when its purchase
value is 0 (or not positive), and the division defining the rate is only
taken under a strictly positive purchase value. -/
theorem c8_rate_division_guarded (df : List Trade) (p : String → Option ℚ) :
    ∀ r ∈ calculate_unrealized_pnl df p,
      (r.purchaseValue = 0 → r.pnlRate = 0) ∧
      (r.pnlRate = 0 ∨
        (0 < r.purchaseValue ∧ r.pnlRate = r.pnl / r.purchaseValue * 100)) := by
  intro r hr
  rw [calculate_unrealized_pnl] at hr
  obtain ⟨t, ht, rfl⟩ := List.mem_map.mp hr
  constructor
  · intro h0
    simp only [unrealizedRow] at h0 ⊢
    rw [if_neg]
    rw [h0]
    exact lt_irrefl 0
  · by_cases hpos : 0 < t.buyPrice * t.buyQty
    · right
      refine ⟨by simpa [unrealizedRow] using hpos, ?_⟩
      simp only [unrealizedRow]
      rw [if_pos hpos]
    · left
      simp only [unrealizedRow]
      rw [if_neg hpos]

theorem c8_witness :
    (unrealizedRow pSixty exOpenZero).purchaseValue = 0 ∧
    (unrealizedRow pSixty exOpenZero).pnlRate = 0 := by
  have h := c8_rate_division_guarded [exOpenZero] pSixty
    (unrealizedRow pSixty exOpenZero)
    (by rw [calculate_unrealized_pnl]; simp [exOpenZero])
  have hpv : (unrealizedRow pSixty exOpenZero).purchaseValue = 0 := by
    simp [unrealizedRow, exOpenZero]
  exact ⟨hpv, h.1 hpv⟩

/-- C6: `calculate_kpis` returns win rate = winners / closed-trade count ×
100 when a closed trade exists, 0 when none exists, and the win rate always
lies in the interval [0, 100]. -/
theorem c6_win_rate_formula_and_bounds
    (df : List Trade) (u : List UnrealizedPos) (capital : ℚ) :
    ((df.filter (fun t => t.status == "売却済")).length = 0 →
      (calculate_kpis df u capital).winRate = 0) ∧
    ((df.filter (fun t => t.status == "売却済")).length ≠ 0 →
      (calculate_kpis df u capital).winRate =
        (((df.filter (fun t => t.status == "売却済")).filter
            (fun t => decide (0 < t.realizedPnl))).length : ℚ)
          / ((df.filter (fun t => t.status == "売却済")).length : ℚ) * 100) ∧
    0 ≤ (calculate_kpis df u capital).winRate ∧
    (calculate_kpis df u capital).winRate ≤ 100 := by
  have hwin : (calculate_kpis df u capital).winRate =
      if (df.filter (fun t => t.status == "売却済")).length > 0 then
        (((df.filter (fun t => t.status == "売却済")).filter
            (fun t => decide (0 < t.realizedPnl))).length : ℚ)
          / ((df.filter (fun t => t.status == "売却済")).length : ℚ) * 100
      else 0 := rfl
  by_cases h0 : (df.filter (fun t => t.status == "売却済")).length = 0
  · rw [hwin, if_neg (by omega)]
    exact ⟨fun _ => rfl, fun hne => absurd h0 hne, le_refl 0, by norm_num⟩
  · have hpos : 0 < (df.filter (fun t => t.status == "売却済")).length :=
      Nat.pos_of_ne_zero h0
    rw [hwin, if_pos hpos]
    have hle : ((df.filter (fun t => t.status == "売却済")).filter
        (fun t => decide (0 < t.realizedPnl))).length
          ≤ (df.filter (fun t => t.status == "売却済")).length :=
      List.length_filter_le _ _
    have hlq : (0 : ℚ) < ((df.filter (fun t => t.status == "売却済")).length : ℚ) := by
      exact_mod_cast hpos
    have hnn : (0 : ℚ) ≤
        (((df.filter (fun t => t.status == "売却済")).filter
            (fun t => decide (0 < t.realizedPnl))).length : ℚ)
          / ((df.filter (fun t => t.status == "売却済")).length : ℚ) * 100 := by
      positivity
    have hub :
        (((df.filter (fun t => t.status == "売却済")).filter
            (fun t => decide (0 < t.realizedPnl))).length : ℚ)
          / ((df.filter (fun t => t.status == "売却済")).length : ℚ) * 100 ≤ 100 := by
      have h1 : (((df.filter (fun t => t.status == "売却済")).filter
          (fun t => decide (0 < t.realizedPnl))).length : ℚ)
            / ((df.filter (fun t => t.status == "売却済")).length : ℚ) ≤ 1 := by
        rw [div_le_one hlq]
        exact_mod_cast hle
      have h2 := mul_le_mul_of_nonneg_right h1 (by norm_num : (0 : ℚ) ≤ 100)
      simpa using h2
    exact ⟨fun hc0 => absurd hc0 h0, fun _ => rfl, hnn, hub⟩

theorem c6_witness :
    0 ≤ (calculate_kpis [exClosed] [] 0).winRate ∧
    (calculate_kpis [exClosed] [] 0).winRate ≤ 100 ∧
    (calculate_kpis [exClosed] [] 0).winRate = 100 := by
  obtain ⟨hz, hf, hlb, hub⟩ := c6_win_rate_formula_and_bounds [exClosed] [] 0
  refine ⟨hlb, hub, ?_⟩
  have hne : ([exClosed].filter (fun t => t.status == "売却済")).length ≠ 0 := by
    simp [exClosed]
  rw [hf hne]
  norm_num [exClosed, List.filter]

/-- C1: refuted by the code — fed the table that `calculate_unrealized_pnl`
actually produces (whose profit column is `含み損益`), `calculate_kpis`
reports a total unrealized P&L of 0 even though the per-position unrealized
P&L values of that table sum to 50. -/
theorem c1_kpis_unrealized_total_stuck_at_zero :
    (calculate_kpis [exClosed, exOpen]
        (calculate_unrealized_pnl [exClosed, exOpen] pSixty) 1000).unrealizedPnl = 0 ∧
    ((calculate_unrealized_pnl [exClosed, exOpen] pSixty).map
        (fun r => r.pnl)).sum = 50 := by
  constructor
  · rfl
  · simp [calculate_unrealized_pnl, unrealizedRow, exClosed, exOpen, pSixty]
    norm_num

/-- C2: refuted by the code — on a ledger with one open position, the
summary-table builder reads the column `損益` from the unrealized table,
which only has `含み損益`, so the call aborts with a `KeyError` instead of
returning one row per trade. -/
theorem c2_summary_table_raises_keyerror :
    get_trade_summary_table [exOpen] (calculate_unrealized_pnl [exOpen] pNone)
      = Except.error "KeyError: 損益" := by
  have hu : calculate_unrealized_pnl [exOpen] pNone
      = [unrealizedRow pNone exOpen] := by
    simp [calculate_unrealized_pnl, exOpen]
  rw [hu]
  simp [get_trade_summary_table, buildHoldingRows, holdingDisplayRow_eq_error]

theorem equityPoints_length (c : ℚ) (l : List Trade) (acc : ℚ) :
    (equityPoints c l acc).length = l.length := by
  induction l generalizing acc with
  | nil => rfl
  | cons t ts ih => simp [equityPoints, ih]

theorem equityPoints_dates (c : ℚ) (l : List Trade) (acc : ℚ) :
    (equityPoints c l acc).map (fun pt => pt.date)
      = l.map (fun t => t.sellDate) := by
  induction l generalizing acc with
  | nil => rfl
  | cons t ts ih => simp [equityPoints, ih]

/-- C3 counterexample: on the empty ledger `calculate_equity_curve`
returns the empty frame — zero points, not the single point
(now, principal) the claim requires. -/
theorem c3_empty_ledger_counterexample :
    calculate_equity_curve [] [] 100000 7 = [] ∧
    (calculate_equity_curve [] [] 100000 7).length ≠
      (List.filter (fun t => t.status == "売却済") ([] : List Trade)).length + 1 :=
  ⟨rfl, by simp [calculate_equity_curve]⟩

/-- C3 (amended): an empty ledger yields an empty curve; for every
non-empty ledger the curve has (number of closed trades) + 1 points, and
when every closed trade has a sale date not after the evaluation time the
curve's timestamps are non-decreasing. -/
theorem c3_curve_length_and_monotone
    (df : List Trade) (u : List UnrealizedPos) (capital : ℚ) (now : Nat) :
    (df = [] → calculate_equity_curve df u capital now = []) ∧
    (df ≠ [] →
      (calculate_equity_curve df u capital now).length
        = (df.filter (fun t => t.status == "売却済")).length + 1 ∧
      ((∀ t ∈ df, t.status = "売却済" → ∃ d, t.sellDate = some d ∧ d ≤ now) →
        ((calculate_equity_curve df u capital now).map (fun pt => pt.date)).Pairwise
          (fun a b => natLastB a b = true))) := by
  constructor
  · intro h
    subst h
    rfl
  · intro hne
    have hEmpty : df.isEmpty = false := by
      cases df with
      | nil => exact absurd rfl hne
      | cons a l => rfl
    have hcurve : calculate_equity_curve df u capital now =
        equityPoints capital
            (List.insertionSort sellLE (df.filter (fun t => t.status == "売却済"))) 0
          ++ [{ date := some now,
                asset :=
                  (match (equityPoints capital
                      (List.insertionSort sellLE
                        (df.filter (fun t => t.status == "売却済"))) 0).getLast? with
                   | some pt => pt.asset
                   | none => capital) + unrealizedTotal u,
                principal := capital }] := by
      simp [calculate_equity_curve, hEmpty]
    constructor
    · rw [hcurve]
      simp [equityPoints_length, List.length_insertionSort]
    · intro hdates
      rw [hcurve, List.map_append, equityPoints_dates, List.pairwise_append]
      refine ⟨?_, by simp, ?_⟩
      · have hs : List.Sorted sellLE
            (List.insertionSort sellLE (df.filter (fun t => t.status == "売却済"))) :=
          List.sorted_insertionSort sellLE _
        exact hs.map _ (fun a b h => h)
      · intro a ha b hb
        simp only [List.map_cons, List.map_nil, List.mem_singleton] at hb
        obtain ⟨t, htmem, rfl⟩ := List.mem_map.mp ha
        have ht2 : t ∈ df.filter (fun t => t.status == "売却済") :=
          (List.perm_insertionSort sellLE _).subset htmem
        obtain ⟨hdf, hstat⟩ := List.mem_filter.mp ht2
        have hstat2 : t.status = "売却済" := by simpa using hstat
        obtain ⟨d, hd, hdn⟩ := hdates t hdf hstat2
        subst hb
        rw [hd]
        simpa [natLastB, Nat.ble_eq] using hdn

theorem c3_witness :
    (calculate_equity_curve [exClosed] [] 1000 10).length
      = ([exClosed].filter (fun t => t.status == "売却済")).length + 1 ∧
    ((calculate_equity_curve [exClosed] [] 1000 10).map (fun pt => pt.date)).Pairwise
      (fun a b => natLastB a b = true) := by
  obtain ⟨hemp, hrest⟩ := c3_curve_length_and_monotone [exClosed] [] 1000 10
  obtain ⟨hlen, hmono⟩ := hrest (by simp)
  refine ⟨hlen, hmono ?_⟩
  intro t ht hstat
  simp only [List.mem_singleton] at ht
  subst ht
  exact ⟨5, rfl, by omega⟩

/-- C4: refuted by the code — with one closed trade (realized P&L 500,
sold at time 5) and one open position whose unrealized P&L is 50, the
trailing point of the curve at evaluation time 10 has value 1500 (the last
cumulative value plus 0), not 1550 (the last cumulative value plus the
unrealized total of the table), because the unrealized table has no
`損益` column. -/
theorem c4_trailing_point_ignores_unrealized :
    calculate_equity_curve [exClosed, exOpen]
        (calculate_unrealized_pnl [exClosed, exOpen] pSixty) 1000 10
      = [{ date := some 5, asset := 1500, principal := 1000 },
         { date := some 10, asset := 1500, principal := 1000 }] ∧
    ((calculate_unrealized_pnl [exClosed, exOpen] pSixty).map
        (fun r => r.pnl)).sum = 50 := by
  constructor
  · simp [calculate_equity_curve, calculate_unrealized_pnl, exClosed, exOpen, pSixty,
      List.insertionSort, List.orderedInsert, equityPoints, unrealizedTotal,
      unrealizedCols, sumCol]
    norm_num
  · simp [calculate_unrealized_pnl, unrealizedRow, exClosed, exOpen, pSixty]
    norm_num

/-- C5 counterexample: a ledger of three closed trades with entry dates
2, 1, 3 produces rows whose entry dates appear as 2, 1, 3 — neither
ascending nor descending, so the rows are not sorted by entry date in any
one direction. -/
theorem c5_rows_not_sorted_counterexample :
    get_trade_summary_table [exSortA, exSortB, exSortC] []
      = Except.ok [closedDisplayRow exSortA, closedDisplayRow exSortB,
          closedDisplayRow exSortC] ∧
    ¬((([closedDisplayRow exSortA, closedDisplayRow exSortB,
           closedDisplayRow exSortC].map (fun r => decodeDate r.buyDate)).Pairwise
            (fun a b => a ≤ b)) ∨
      (([closedDisplayRow exSortA, closedDisplayRow exSortB,
           closedDisplayRow exSortC].map (fun r => decodeDate r.buyDate)).Pairwise
            (fun a b => b ≤ a))) := by
  constructor
  · rfl
  · have hdates : [closedDisplayRow exSortA, closedDisplayRow exSortB,
        closedDisplayRow exSortC].map (fun r => decodeDate r.buyDate)
          = [2, 1, 3] := rfl
    rw [hdates]
    decide

/-- C5 (amended): the summary-table rows are not sorted by entry date —
whenever the call returns at all, the rows are exactly one per closed
trade, in ledger (input) order. -/
theorem c5_rows_in_ledger_order (df : List Trade) (u : List UnrealizedPos)
    (rows : List DisplayRow)
    (h : get_trade_summary_table df u = Except.ok rows) :
    rows = (df.filter (fun t => t.status == "売却済")).map closedDisplayRow := by
  cases u with
  | nil =>
    simp only [get_trade_summary_table, Except.ok.injEq] at h
    exact h.symm
  | cons r rs =>
    simp [get_trade_summary_table, buildHoldingRows,
      holdingDisplayRow_eq_error] at h

theorem c5_witness :
    [closedDisplayRow exSortA, closedDisplayRow exSortB, closedDisplayRow exSortC]
      = ([exSortA, exSortB, exSortC].filter (fun t => t.status == "売却済")).map
          closedDisplayRow :=
  c5_rows_in_ledger_order [exSortA, exSortB, exSortC] [] _ rfl
